import Mathlib

/-!
Verification of the basketball shot-event tracker
(`sports/tools/basketball.py`, class `ShotEventTracker`).

The tracker is a small causal finite-state machine driven by one `update`
call per video frame.  Each call takes the frame index and three boolean
detection signals and returns an ordered list of event records.  This file
gives a shallow embedding of that class: Python `int` becomes `Int`,
`Optional[int]` becomes `Option Int`, the two enumerations become inductive
types, and the mutable dataclass becomes explicit state passing.
-/

namespace Sports

/-- Module-level constant `BALL_IN_BASKET_MIN_CONSECUTIVE_FRAMES = 2`. -/
def BALL_IN_BASKET_MIN_CONSECUTIVE_FRAMES : Int := 2

/-- Module-level constant `JUMP_SHOT_MIN_CONSECUTIVE_FRAMES = 3`. -/
def JUMP_SHOT_MIN_CONSECUTIVE_FRAMES : Int := 3

/-- Module-level constant `LAYUP_DUNK_MIN_CONSECUTIVE_FRAMES = 3`. -/
def LAYUP_DUNK_MIN_CONSECUTIVE_FRAMES : Int := 3

/-- Enumeration `ShotType` with members NONE, JUMP, LAYUP. -/
inductive ShotType where
  | NONE
  | JUMP
  | LAYUP
deriving DecidableEq, Repr

/-- Enumeration `ShotEvent` with members START, MADE, MISSED. -/
inductive ShotEvent where
  | START
  | MADE
  | MISSED
deriving DecidableEq, Repr

/-- The `ShotEventRecord` TypedDict: `{event, frame, type}`. -/
structure ShotEventRecord where
  event : ShotEvent
  frame : Int
  type : ShotType
deriving DecidableEq, Repr

/-- The `ShotEventTracker` dataclass: three configuration fields followed by
the mutable state fields, with the dataclass defaults made explicit in
`ShotEventTracker.init` below. -/
structure ShotEventTracker where
  reset_time_frames : Int
  minimum_frames_between_starts : Int
  cooldown_frames_after_made : Int
  shot_in_progress : Bool
  shot_type : ShotType
  shot_start_frame : Option Int
  shot_deadline_frame : Option Int
  frames_since_start : Int
  consecutive_jump_shot_frames : Int
  consecutive_layup_frames : Int
  consecutive_ball_in_basket_frames : Int
  last_made_frame : Option Int
deriving DecidableEq, Repr

namespace ShotEventTracker

/-- Constructing `ShotEventTracker(r, m, c)`: all non-configuration fields
take their dataclass defaults. -/
def init (reset_time_frames minimum_frames_between_starts cooldown_frames_after_made : Int) :
    ShotEventTracker :=
  { reset_time_frames := reset_time_frames
    minimum_frames_between_starts := minimum_frames_between_starts
    cooldown_frames_after_made := cooldown_frames_after_made
    shot_in_progress := false
    shot_type := ShotType.NONE
    shot_start_frame := none
    shot_deadline_frame := none
    frames_since_start := 0
    consecutive_jump_shot_frames := 0
    consecutive_layup_frames := 0
    consecutive_ball_in_basket_frames := 0
    last_made_frame := none }

/-- Python construction can in principle raise (e.g. from a `__post_init__`
validator), so the constructor is embedded fallibly.  The dataclass defines
no `__post_init__` and performs no validation, hence the result is always
`Except.ok` of the default-initialised state. -/
def construct (reset_time_frames minimum_frames_between_starts cooldown_frames_after_made : Int) :
    Except String ShotEventTracker :=
  Except.ok (init reset_time_frames minimum_frames_between_starts cooldown_frames_after_made)

/-- Static method `_updated_consecutive_frames`:
`current_count + 1 if detected else 0`. -/
def updated_consecutive_frames (current_count : Int) (detected : Bool) : Int :=
  if detected then current_count + 1 else 0

/-- The first statements of `update`: all three consecutive-frame counters
are stepped by `_updated_consecutive_frames`. -/
def step_counters (s : ShotEventTracker) (has_jump_shot has_layup_dunk has_ball_in_basket : Bool) :
    ShotEventTracker :=
  { s with
    consecutive_jump_shot_frames :=
      updated_consecutive_frames s.consecutive_jump_shot_frames has_jump_shot
    consecutive_layup_frames :=
      updated_consecutive_frames s.consecutive_layup_frames has_layup_dunk
    consecutive_ball_in_basket_frames :=
      updated_consecutive_frames s.consecutive_ball_in_basket_frames has_ball_in_basket }

/-- Method `_start_new_shot`. -/
def start_new_shot (s : ShotEventTracker) (shot_type : ShotType) (frame_index : Int) :
    ShotEventTracker :=
  { s with
    shot_in_progress := true
    shot_type := shot_type
    shot_start_frame := some frame_index
    shot_deadline_frame := some (frame_index + s.reset_time_frames)
    frames_since_start := 0
    consecutive_ball_in_basket_frames := 0 }

/-- Method `_has_confirmed_make`:
`consecutive_ball_in_basket_frames >= BALL_IN_BASKET_MIN_CONSECUTIVE_FRAMES`. -/
def has_confirmed_make (s : ShotEventTracker) : Bool :=
  decide (BALL_IN_BASKET_MIN_CONSECUTIVE_FRAMES ≤ s.consecutive_ball_in_basket_frames)

/-- Method `_deadline_reached`: `shot_deadline_frame is not None and
frame_index >= shot_deadline_frame`. -/
def deadline_reached (s : ShotEventTracker) (frame_index : Int) : Bool :=
  match s.shot_deadline_frame with
  | none => false
  | some d => decide (d ≤ frame_index)

/-- Method `_within_post_made_cooldown`: returns `False` when
`last_made_frame` is `None`, else `(frame_index - last_made_frame) <
cooldown_frames_after_made`. -/
def within_post_made_cooldown (s : ShotEventTracker) (frame_index : Int) : Bool :=
  match s.last_made_frame with
  | none => false
  | some m => decide (frame_index - m < s.cooldown_frames_after_made)

/-- Method `_start_event`. -/
def start_event (s : ShotEventTracker) (frame_index : Int) : ShotEventRecord :=
  { event := ShotEvent.START, frame := frame_index, type := s.shot_type }

/-- Method `_made_event`. -/
def made_event (s : ShotEventTracker) (frame_index : Int) : ShotEventRecord :=
  { event := ShotEvent.MADE, frame := frame_index, type := s.shot_type }

/-- Method `_missed_event`. -/
def missed_event (s : ShotEventTracker) (frame_index : Int) : ShotEventRecord :=
  { event := ShotEvent.MISSED, frame := frame_index, type := s.shot_type }

/-- Method `_reset_consecutive_counters`. -/
def reset_consecutive_counters (s : ShotEventTracker) : ShotEventTracker :=
  { s with
    consecutive_jump_shot_frames := 0
    consecutive_layup_frames := 0
    consecutive_ball_in_basket_frames := 0 }

/-- Method `_reset_shot_state`: clears the shot fields and then calls
`_reset_consecutive_counters`. -/
def reset_shot_state (s : ShotEventTracker) : ShotEventTracker :=
  reset_consecutive_counters
    { s with
      shot_in_progress := false
      shot_type := ShotType.NONE
      shot_start_frame := none
      shot_deadline_frame := none
      frames_since_start := 0 }

/-- The body of the `if should_start_shot:` block of `update` (lines 77-88
of the source): force-miss a sufficiently old in-progress shot and start the
new one, keep a too-young in-progress shot untouched, or start directly from
idle.  `reached_jump` is the jump-threshold flag, used for the JUMP-first
tie-break on the new shot's type. -/
def start_shot_branch (s : ShotEventTracker) (frame_index : Int) (reached_jump : Bool) :
    ShotEventTracker × List ShotEventRecord :=
  if s.shot_in_progress then
    if s.minimum_frames_between_starts ≤ s.frames_since_start then
      (start_new_shot (reset_shot_state s)
          (if reached_jump then ShotType.JUMP else ShotType.LAYUP) frame_index,
        [missed_event s frame_index,
          start_event (start_new_shot (reset_shot_state s)
            (if reached_jump then ShotType.JUMP else ShotType.LAYUP) frame_index) frame_index])
    else
      (s, [])
  else
    (start_new_shot s (if reached_jump then ShotType.JUMP else ShotType.LAYUP) frame_index,
      [start_event (start_new_shot s
        (if reached_jump then ShotType.JUMP else ShotType.LAYUP) frame_index) frame_index])

/-- The start-handling block of `update` (lines 72-88 of the source).
`reached_jump` and `reached_layup` are the two threshold flags computed from
the already-stepped counters; `should_start_shot` is their disjunction,
suppressed inside the post-made cooldown window. -/
def start_phase (s : ShotEventTracker) (frame_index : Int) (reached_jump reached_layup : Bool) :
    ShotEventTracker × List ShotEventRecord :=
  if (reached_jump || reached_layup) && !(within_post_made_cooldown s frame_index) then
    start_shot_branch s frame_index reached_jump
  else
    (s, [])

/-- The statement `self.frames_since_start += 1` of the resolution block. -/
def tick (s : ShotEventTracker) : ShotEventTracker :=
  { s with frames_since_start := s.frames_since_start + 1 }

/-- The statement `self.last_made_frame = frame_index` of the MADE branch. -/
def record_made_frame (s : ShotEventTracker) (frame_index : Int) : ShotEventTracker :=
  { s with last_made_frame := some frame_index }

/-- The resolution block of `update` (the trailing `if self.shot_in_progress:`
part, lines 90-102 of the source): increment `frames_since_start`, emit MADE
on a confirmed make (recording `last_made_frame` and returning at once,
skipping the deadline check), else emit MISSED once the deadline is reached. -/
def resolve_phase (s : ShotEventTracker) (frame_index : Int) (events : List ShotEventRecord) :
    ShotEventTracker × List ShotEventRecord :=
  if s.shot_in_progress then
    if has_confirmed_make (tick s) then
      (reset_shot_state (record_made_frame (tick s) frame_index),
        events ++ [made_event (tick s) frame_index])
    else
      if deadline_reached (tick s) frame_index then
        (reset_shot_state (tick s), events ++ [missed_event (tick s) frame_index])
      else
        (tick s, events)
  else
    (s, events)

/-- Method `update`: step the counters, compute the exact-equality threshold
flags, run the start-handling block, then the resolution block. -/
def update (s0 : ShotEventTracker) (frame_index : Int)
    (has_jump_shot has_layup_dunk has_ball_in_basket : Bool) :
    ShotEventTracker × List ShotEventRecord :=
  let s := step_counters s0 has_jump_shot has_layup_dunk has_ball_in_basket
  let p := start_phase s frame_index
    (decide (s.consecutive_jump_shot_frames = JUMP_SHOT_MIN_CONSECUTIVE_FRAMES))
    (decide (s.consecutive_layup_frames = LAYUP_DUNK_MIN_CONSECUTIVE_FRAMES))
  resolve_phase p.1 frame_index p.2

/-- `update` with the start-handling block skipped, exactly as the source
behaves on a call in which `should_start_shot` is (or is forced) false. -/
def update_without_start (s0 : ShotEventTracker) (frame_index : Int)
    (has_jump_shot has_layup_dunk has_ball_in_basket : Bool) :
    ShotEventTracker × List ShotEventRecord :=
  let s := step_counters s0 has_jump_shot has_layup_dunk has_ball_in_basket
  resolve_phase s frame_index []

/-- One input to `update`: frame index and the three boolean signals. -/
structure FrameInput where
  frame_index : Int
  has_jump_shot : Bool
  has_layup_dunk : Bool
  has_ball_in_basket : Bool
deriving DecidableEq, Repr

/-- Driving the tracker through a list of calls, returning the final state. -/
def runState (s : ShotEventTracker) : List FrameInput → ShotEventTracker
  | [] => s
  | i :: rest =>
      runState (update s i.frame_index i.has_jump_shot i.has_layup_dunk i.has_ball_in_basket).1 rest

/-- Driving the tracker through a list of calls, returning the list of
per-call outputs. -/
def runOutputs (s : ShotEventTracker) : List FrameInput → List (List ShotEventRecord)
  | [] => []
  | i :: rest =>
      (update s i.frame_index i.has_jump_shot i.has_layup_dunk i.has_ball_in_basket).2 ::
        runOutputs (update s i.frame_index i.has_jump_shot i.has_layup_dunk i.has_ball_in_basket).1 rest

/-- The 13-frame scenario of claim C4: a jump-shot run completing at frame 2
followed by all-false frames up to frame 12. -/
def deadline_missed_trace : List FrameInput :=
  [⟨0, true, false, false⟩, ⟨1, true, false, false⟩, ⟨2, true, false, false⟩,
   ⟨3, false, false, false⟩, ⟨4, false, false, false⟩, ⟨5, false, false, false⟩,
   ⟨6, false, false, false⟩, ⟨7, false, false, false⟩, ⟨8, false, false, false⟩,
   ⟨9, false, false, false⟩, ⟨10, false, false, false⟩, ⟨11, false, false, false⟩,
   ⟨12, false, false, false⟩]

/-- The state invariant maintained by `update`: the idle state is fully
cleared (type NONE, no start or deadline frame, zero shot age), and an
in-progress state has a non-NONE type and a deadline equal to its start
frame plus `reset_time_frames`. -/
def Inv (s : ShotEventTracker) : Prop :=
  (s.shot_in_progress = false →
    s.shot_type = ShotType.NONE ∧ s.shot_start_frame = none ∧
      s.shot_deadline_frame = none ∧ s.frames_since_start = 0) ∧
  (s.shot_in_progress = true →
    s.shot_type ≠ ShotType.NONE ∧
      ∃ a, s.shot_start_frame = some a ∧
        s.shot_deadline_frame = some (a + s.reset_time_frames))

/-- Accessing the value of an `Optional[int]`: in Python, using a `None`
operand in integer arithmetic or comparison raises a `TypeError`.  This is
the one genuine failure site the guarded code must avoid. -/
def getSome : Option Int → Except String Int
  | none => Except.error "unsupported operand type for int and NoneType"
  | some v => Except.ok v

/-- Error-tracking embedding of `_deadline_reached`: the raw comparison
`frame_index >= shot_deadline_frame` would raise on `None`, and is guarded
by the short-circuiting `is not None` conjunct. -/
def deadline_reachedE (s : ShotEventTracker) (frame_index : Int) : Except String Bool :=
  if s.shot_deadline_frame = none then
    Except.ok false
  else do
    let d ← getSome s.shot_deadline_frame
    pure (decide (d ≤ frame_index))

/-- Error-tracking embedding of `_within_post_made_cooldown`: the raw
subtraction `frame_index - last_made_frame` would raise on `None`, and is
guarded by the early `return False` on `None`. -/
def within_post_made_cooldownE (s : ShotEventTracker) (frame_index : Int) : Except String Bool :=
  if s.last_made_frame = none then
    Except.ok false
  else do
    let m ← getSome s.last_made_frame
    pure (decide (frame_index - m < s.cooldown_frames_after_made))

/-- Error-tracking embedding of the resolution block: identical to
`resolve_phase` except that the deadline comparison goes through its guarded
fallible form. -/
def resolve_phaseE (s : ShotEventTracker) (frame_index : Int) (events : List ShotEventRecord) :
    Except String (ShotEventTracker × List ShotEventRecord) :=
  if s.shot_in_progress then
    if has_confirmed_make (tick s) then
      pure (reset_shot_state (record_made_frame (tick s) frame_index),
        events ++ [made_event (tick s) frame_index])
    else do
      let dl ← deadline_reachedE (tick s) frame_index
      if dl then
        pure (reset_shot_state (tick s), events ++ [missed_event (tick s) frame_index])
      else
        pure (tick s, events)
  else
    pure (s, events)

/-- Error-tracking embedding of `update`: identical to `update` except that
the two `Optional[int]` reads go through their guarded fallible forms, so a
hypothetical unguarded `None` access would surface as `Except.error`. -/
def updateE (s0 : ShotEventTracker) (frame_index : Int)
    (has_jump_shot has_layup_dunk has_ball_in_basket : Bool) :
    Except String (ShotEventTracker × List ShotEventRecord) := do
  let s := step_counters s0 has_jump_shot has_layup_dunk has_ball_in_basket
  let reached_jump := decide (s.consecutive_jump_shot_frames = JUMP_SHOT_MIN_CONSECUTIVE_FRAMES)
  let reached_layup := decide (s.consecutive_layup_frames = LAYUP_DUNK_MIN_CONSECUTIVE_FRAMES)
  let cooldown ← within_post_made_cooldownE s frame_index
  let p :=
    if (reached_jump || reached_layup) && !cooldown then
      start_shot_branch s frame_index reached_jump
    else
      (s, [])
  resolve_phaseE p.1 frame_index p.2

end ShotEventTracker

end Sports

namespace Sports.ShotEventTracker

/-! ## Supporting lemmas -/

theorem within_post_made_cooldownE_eq (s : ShotEventTracker) (frame_index : Int) :
    within_post_made_cooldownE s frame_index =
      Except.ok (within_post_made_cooldown s frame_index) := by
  cases h : s.last_made_frame <;>
    simp [within_post_made_cooldownE, within_post_made_cooldown, getSome, h, Except.bind]

theorem deadline_reachedE_eq (s : ShotEventTracker) (frame_index : Int) :
    deadline_reachedE s frame_index = Except.ok (deadline_reached s frame_index) := by
  cases h : s.shot_deadline_frame <;>
    simp [deadline_reachedE, deadline_reached, getSome, h, Except.bind]

theorem resolve_phaseE_eq (s : ShotEventTracker) (frame_index : Int)
    (events : List ShotEventRecord) :
    resolve_phaseE s frame_index events = Except.ok (resolve_phase s frame_index events) := by
  unfold resolve_phaseE resolve_phase
  by_cases h : s.shot_in_progress = true
  · by_cases hm : has_confirmed_make (tick s) = true
    · simp only [h, hm, if_true, pure, Except.pure]
    · cases hd : deadline_reached (tick s) frame_index <;>
        simp [h, hm, hd, deadline_reachedE_eq, Bind.bind, Except.bind, pure, Except.pure]
  · simp only [h, if_false, Bool.false_eq_true, pure, Except.pure]

theorem mem_resolve_phase_events {s : ShotEventTracker} {frame_index : Int}
    {events : List ShotEventRecord} {r : ShotEventRecord}
    (hr : r ∈ (resolve_phase s frame_index events).2) :
    r ∈ events ∨
      (s.shot_in_progress = true ∧ r.event = ShotEvent.MADE ∧
        r.type = s.shot_type ∧ r.frame = frame_index) ∨
      (s.shot_in_progress = true ∧ r.event = ShotEvent.MISSED ∧
        r.type = s.shot_type ∧ r.frame = frame_index) := by
  unfold resolve_phase at hr
  split_ifs at hr with h1 h2 h3
  · rcases List.mem_append.1 hr with h | h
    · exact Or.inl h
    · refine Or.inr (Or.inl ?_)
      rcases List.mem_singleton.1 h with rfl
      exact ⟨h1, rfl, rfl, rfl⟩
  · rcases List.mem_append.1 hr with h | h
    · exact Or.inl h
    · refine Or.inr (Or.inr ?_)
      rcases List.mem_singleton.1 h with rfl
      exact ⟨h1, rfl, rfl, rfl⟩
  · exact Or.inl hr
  · exact Or.inl hr

theorem mem_start_phase_events {s : ShotEventTracker} {frame_index : Int}
    {reached_jump reached_layup : Bool} {r : ShotEventRecord}
    (hr : r ∈ (start_phase s frame_index reached_jump reached_layup).2) :
    (r.event = ShotEvent.MISSED ∧ r.type = s.shot_type ∧ r.frame = frame_index) ∨
      (r.event = ShotEvent.START ∧
        r.type = (if reached_jump then ShotType.JUMP else ShotType.LAYUP) ∧
        r.frame = frame_index) := by
  unfold start_phase at hr
  by_cases h1 : ((reached_jump || reached_layup) &&
      !(within_post_made_cooldown s frame_index)) = true
  · rw [if_pos h1] at hr
    unfold start_shot_branch at hr
    by_cases h2 : s.shot_in_progress = true
    · rw [if_pos h2] at hr
      by_cases h3 : s.minimum_frames_between_starts ≤ s.frames_since_start
      · rw [if_pos h3] at hr
        rcases List.mem_cons.1 hr with rfl | hr
        · exact Or.inl ⟨rfl, rfl, rfl⟩
        · rcases List.mem_singleton.1 hr with rfl
          exact Or.inr ⟨rfl, rfl, rfl⟩
      · rw [if_neg h3] at hr
        exact absurd hr (List.not_mem_nil r)
    · rw [if_neg h2] at hr
      rcases List.mem_singleton.1 hr with rfl
      exact Or.inr ⟨rfl, rfl, rfl⟩
  · rw [if_neg h1] at hr
    exact absurd hr (List.not_mem_nil r)

/-- Every record emitted by `update` comes from the start-handling block or
the resolution block, with the latter stamped with the intermediate state's
shot type. -/
theorem mem_update_events {s0 : ShotEventTracker} {frame_index : Int}
    {has_jump_shot has_layup_dunk has_ball_in_basket : Bool} {r : ShotEventRecord}
    (hr : r ∈ (update s0 frame_index has_jump_shot has_layup_dunk has_ball_in_basket).2) :
    (r ∈ (start_phase (step_counters s0 has_jump_shot has_layup_dunk has_ball_in_basket)
        frame_index
        (decide ((step_counters s0 has_jump_shot has_layup_dunk
          has_ball_in_basket).consecutive_jump_shot_frames = JUMP_SHOT_MIN_CONSECUTIVE_FRAMES))
        (decide ((step_counters s0 has_jump_shot has_layup_dunk
          has_ball_in_basket).consecutive_layup_frames = LAYUP_DUNK_MIN_CONSECUTIVE_FRAMES))).2) ∨
      r.event = ShotEvent.MADE ∨ r.event = ShotEvent.MISSED := by
  unfold update at hr
  rcases mem_resolve_phase_events hr with h | h | h
  · exact Or.inl h
  · exact Or.inr (Or.inl h.2.1)
  · exact Or.inr (Or.inr h.2.1)

/-- The state returned by the resolution block is one of four shapes. -/
theorem resolve_phase_state_cases (s : ShotEventTracker) (frame_index : Int)
    (events : List ShotEventRecord) :
    (resolve_phase s frame_index events).1 =
        reset_shot_state (record_made_frame (tick s) frame_index) ∨
      (resolve_phase s frame_index events).1 = reset_shot_state (tick s) ∨
      (resolve_phase s frame_index events).1 = tick s ∨
      (resolve_phase s frame_index events).1 = s := by
  unfold resolve_phase
  split_ifs <;> simp

theorem resolve_phase_length (s : ShotEventTracker) (frame_index : Int)
    (events : List ShotEventRecord) :
    (resolve_phase s frame_index events).2.length ≤ events.length + 1 := by
  unfold resolve_phase
  split_ifs <;> simp

/-- Directly after `_start_new_shot` the ball counter is 0 and the deadline
lies strictly in the future (for a positive `reset_time_frames`), so the
resolution block only increments the shot age. -/
theorem resolve_phase_after_start (s0 : ShotEventTracker) (t : ShotType) (frame_index : Int)
    (events : List ShotEventRecord) (hr : 0 < s0.reset_time_frames) :
    resolve_phase (start_new_shot s0 t frame_index) frame_index events =
      (tick (start_new_shot s0 t frame_index), events) := by
  have h1 : (start_new_shot s0 t frame_index).shot_in_progress = true := rfl
  have h2 : has_confirmed_make (tick (start_new_shot s0 t frame_index)) = false := rfl
  have h3 : deadline_reached (tick (start_new_shot s0 t frame_index)) frame_index = false := by
    show decide (frame_index + s0.reset_time_frames ≤ frame_index) = false
    exact decide_eq_false (by omega)
  unfold resolve_phase
  rw [if_pos h1, if_neg (by rw [h2]; exact Bool.false_ne_true),
    if_neg (by rw [h3]; exact Bool.false_ne_true)]

theorem inv_init (r m c : Int) : Inv (init r m c) := by
  constructor
  · intro _
    exact ⟨rfl, rfl, rfl, rfl⟩
  · intro h
    exact Bool.noConfusion h

theorem inv_reset_shot_state (s : ShotEventTracker) : Inv (reset_shot_state s) := by
  constructor
  · intro _
    exact ⟨rfl, rfl, rfl, rfl⟩
  · intro h
    exact Bool.noConfusion h

theorem inv_start_new_shot (s : ShotEventTracker) (t : ShotType) (frame_index : Int)
    (ht : t ≠ ShotType.NONE) : Inv (start_new_shot s t frame_index) := by
  constructor
  · intro h
    exact Bool.noConfusion h
  · intro _
    exact ⟨ht, frame_index, rfl, rfl⟩

theorem inv_step_counters (s : ShotEventTracker) (j l b : Bool) (h : Inv s) :
    Inv (step_counters s j l b) := h

theorem inv_record_made_frame (s : ShotEventTracker) (frame_index : Int) (h : Inv s) :
    Inv (record_made_frame s frame_index) := h

theorem inv_tick (s : ShotEventTracker) (h : Inv s) (hp : s.shot_in_progress = true) :
    Inv (tick s) := by
  constructor
  · intro h0
    have h0' : s.shot_in_progress = false := h0
    rw [hp] at h0'
    exact Bool.noConfusion h0'
  · intro _
    exact h.2 hp

theorem inv_start_phase (s : ShotEventTracker) (frame_index : Int) (rj rl : Bool) (h : Inv s) :
    Inv (start_phase s frame_index rj rl).1 := by
  unfold start_phase start_shot_branch
  split_ifs <;> first
    | exact h
    | exact inv_start_new_shot _ _ _ (by simp)

theorem inv_resolve_phase (s : ShotEventTracker) (frame_index : Int)
    (events : List ShotEventRecord) (h : Inv s) : Inv (resolve_phase s frame_index events).1 := by
  unfold resolve_phase
  split_ifs with h1 h2 h3
  · exact inv_reset_shot_state _
  · exact inv_reset_shot_state _
  · exact inv_tick _ h h1
  · exact h

theorem inv_update (s : ShotEventTracker) (frame_index : Int) (j l b : Bool) (h : Inv s) :
    Inv (update s frame_index j l b).1 :=
  inv_resolve_phase _ _ _ (inv_start_phase _ _ _ _ (inv_step_counters s j l b h))

theorem inv_runState (s : ShotEventTracker) (inputs : List FrameInput) (h : Inv s) :
    Inv (runState s inputs) := by
  induction inputs generalizing s with
  | nil => exact h
  | cons i rest ih => exact ih _ (inv_update _ _ _ _ _ h)

theorem update_config_eq (s : ShotEventTracker) (frame_index : Int) (j l b : Bool) :
    (update s frame_index j l b).1.reset_time_frames = s.reset_time_frames := by
  simp only [update, start_phase, start_shot_branch, resolve_phase]
  split_ifs <;> rfl

theorem runState_reset_time_frames (s : ShotEventTracker) (inputs : List FrameInput) :
    (runState s inputs).reset_time_frames = s.reset_time_frames := by
  induction inputs generalizing s with
  | nil => rfl
  | cons i rest ih =>
      rw [runState, ih, update_config_eq]

/-! ## Claim theorems -/

/-- Claim C1, counterexample: constructing a tracker with
`reset_time_frames = 0` (which the claim says must raise at construction
time) succeeds and returns the default-initialised state. -/
theorem construct_accepts_nonpositive_reset :
    construct 0 1 0 = Except.ok (init 0 1 0) := rfl

/-- Claim C1, amended: the dataclass defines no `__post_init__`, so
construction performs no validation at all and succeeds for every integer
parameter combination, valid or not. -/
theorem construct_total (r m c : Int) :
    construct r m c = Except.ok (init r m c) := rfl

/-- Claim C5: from the initial idle state, `has_jump_shot=true` on frames
0, 1, 2 (all else false) yields `[], [], [START frame=2 type=JUMP]`, and a
further all-true call at frame 3 yields `[]` (no repeated START); moreover
whenever the jump and layup counters both sit at their thresholds on one
call, any emitted START record has type JUMP. -/
theorem start_debounce_and_jump_priority :
    (runOutputs (init 10 5 0)
        [⟨0, true, false, false⟩, ⟨1, true, false, false⟩,
         ⟨2, true, false, false⟩, ⟨3, true, false, false⟩] =
      [[], [], [{ event := ShotEvent.START, frame := 2, type := ShotType.JUMP }], []]) ∧
    (∀ (s : ShotEventTracker) (frame_index : Int) (j l b : Bool),
      updated_consecutive_frames s.consecutive_jump_shot_frames j =
        JUMP_SHOT_MIN_CONSECUTIVE_FRAMES →
      updated_consecutive_frames s.consecutive_layup_frames l =
        LAYUP_DUNK_MIN_CONSECUTIVE_FRAMES →
      ∀ r ∈ (update s frame_index j l b).2,
        r.event = ShotEvent.START → r.type = ShotType.JUMP) := by
  constructor
  · decide
  · intro s frame_index j l b hj hl r hr he
    rcases mem_update_events hr with h | h | h
    · rcases mem_start_phase_events h with ⟨h1, _, _⟩ | ⟨_, h2, _⟩
      · rw [he] at h1
        cases h1
      · have : (step_counters s j l b).consecutive_jump_shot_frames =
            JUMP_SHOT_MIN_CONSECUTIVE_FRAMES := hj
        rw [h2, if_pos (by simp [this])]
    · rw [he] at h
      cases h
    · rw [he] at h
      cases h

/-- Claim C5 witness: a concrete call on which both counters hit their
thresholds emits a START record of type JUMP. -/
theorem start_debounce_and_jump_priority_witness :
    (⟨ShotEvent.START, 7, ShotType.JUMP⟩ : ShotEventRecord).type = ShotType.JUMP :=
  start_debounce_and_jump_priority.2
    ⟨10, 5, 0, false, ShotType.NONE, none, none, 0, 2, 2, 0, none⟩ 7 true true false
    (by decide) (by decide) ⟨ShotEvent.START, 7, ShotType.JUMP⟩ (by decide) rfl

/-- Claim C4: with a shot in progress after start handling, a ball-in-basket
counter at (or past) the threshold 2 yields exactly one MADE record stamped
with `frame_index`, records `last_made_frame = frame_index` and resets to
idle, skipping the deadline check; otherwise a reached deadline (`d ≤
frame_index`) yields one MISSED record and a reset to idle.  Concretely,
with `reset_time_frames = 10`, a START at frame 2 and no ball-in-basket
confirmation produces MISSED at exactly frame 12 and leaves the tracker
idle. -/
theorem resolution_made_and_deadline :
    (∀ (s : ShotEventTracker) (frame_index : Int) (events : List ShotEventRecord),
      s.shot_in_progress = true →
      (BALL_IN_BASKET_MIN_CONSECUTIVE_FRAMES ≤ s.consecutive_ball_in_basket_frames →
        resolve_phase s frame_index events =
          (reset_shot_state (record_made_frame (tick s) frame_index),
            events ++ [{ event := ShotEvent.MADE, frame := frame_index, type := s.shot_type }]) ∧
        (resolve_phase s frame_index events).1.last_made_frame = some frame_index ∧
        (resolve_phase s frame_index events).1.shot_in_progress = false) ∧
      (s.consecutive_ball_in_basket_frames < BALL_IN_BASKET_MIN_CONSECUTIVE_FRAMES →
        ∀ d, s.shot_deadline_frame = some d → d ≤ frame_index →
          resolve_phase s frame_index events =
            (reset_shot_state (tick s),
              events ++
                [{ event := ShotEvent.MISSED, frame := frame_index, type := s.shot_type }]) ∧
          (resolve_phase s frame_index events).1.shot_in_progress = false)) ∧
    (runOutputs (init 10 5 0) deadline_missed_trace =
      [[], [], [{ event := ShotEvent.START, frame := 2, type := ShotType.JUMP }],
       [], [], [], [], [], [], [], [], [],
       [{ event := ShotEvent.MISSED, frame := 12, type := ShotType.JUMP }]]) ∧
    (runState (init 10 5 0) deadline_missed_trace).shot_in_progress = false := by
  refine ⟨?_, by decide, by decide⟩
  intro s frame_index events hs
  constructor
  · intro hb
    have hmake : has_confirmed_make (tick s) = true := by
      simp only [has_confirmed_make, tick]
      exact decide_eq_true hb
    unfold resolve_phase
    rw [if_pos hs, if_pos hmake]
    exact ⟨rfl, rfl, rfl⟩
  · intro hb d hd hdf
    have hmake : ¬has_confirmed_make (tick s) = true := by
      simp only [has_confirmed_make, tick]
      simpa using not_le.2 hb
    have hdl : deadline_reached (tick s) frame_index = true := by
      simp only [deadline_reached, tick, hd]
      exact decide_eq_true hdf
    unfold resolve_phase
    rw [if_pos hs, if_neg hmake, if_pos hdl]
    exact ⟨rfl, rfl⟩

/-- Claim C4 witness: a concrete in-progress state with a confirmed make
resolves to MADE, records the made frame, and goes idle. -/
theorem resolution_made_and_deadline_witness :
    (resolve_phase ⟨10, 5, 0, true, ShotType.JUMP, some 2, some 12, 3, 0, 0, 2, none⟩
        7 []).1.last_made_frame = some 7 ∧
    (resolve_phase ⟨10, 5, 0, true, ShotType.JUMP, some 2, some 12, 3, 0, 0, 2, none⟩
        7 []).1.shot_in_progress = false :=
  ((resolution_made_and_deadline.1
      ⟨10, 5, 0, true, ShotType.JUMP, some 2, some 12, 3, 0, 0, 2, none⟩ 7 [] rfl).1
    (by decide)).2

/-- Claim C9: while no shot is in progress and the (cooldown-suppressed)
start condition does not fire, `update` only steps the three counters and
returns no records; in particular any all-false call from a freshly
constructed tracker returns `[]` and leaves the state — every counter at 0
included — exactly as constructed, for any `frame_index`. -/
theorem idle_no_start_is_pure_counter_update :
    (∀ (s : ShotEventTracker) (frame_index : Int) (j l b : Bool),
      s.shot_in_progress = false →
      ((updated_consecutive_frames s.consecutive_jump_shot_frames j =
          JUMP_SHOT_MIN_CONSECUTIVE_FRAMES ∨
        updated_consecutive_frames s.consecutive_layup_frames l =
          LAYUP_DUNK_MIN_CONSECUTIVE_FRAMES) →
        within_post_made_cooldown s frame_index = true) →
      update s frame_index j l b = (step_counters s j l b, [])) ∧
    (∀ (r m c frame_index : Int),
      update (init r m c) frame_index false false false = (init r m c, [])) := by
  constructor
  · intro s frame_index j l b hidle hsupp
    have hcond : ¬(((decide ((step_counters s j l b).consecutive_jump_shot_frames =
          JUMP_SHOT_MIN_CONSECUTIVE_FRAMES) ||
        decide ((step_counters s j l b).consecutive_layup_frames =
          LAYUP_DUNK_MIN_CONSECUTIVE_FRAMES)) &&
        !(within_post_made_cooldown (step_counters s j l b) frame_index)) = true) := by
      intro hcond
      rw [Bool.and_eq_true, Bool.or_eq_true] at hcond
      obtain ⟨hor, hnc⟩ := hcond
      have hcool : within_post_made_cooldown s frame_index = true := by
        refine hsupp ?_
        rcases hor with h | h
        · exact Or.inl (of_decide_eq_true h)
        · exact Or.inr (of_decide_eq_true h)
      have : within_post_made_cooldown (step_counters s j l b) frame_index = true := hcool
      rw [this] at hnc
      cases hnc
    show resolve_phase (start_phase (step_counters s j l b) frame_index _ _).1 frame_index
      (start_phase (step_counters s j l b) frame_index _ _).2 = (step_counters s j l b, [])
    unfold start_phase
    rw [if_neg hcond]
    have hprog : ¬((step_counters s j l b).shot_in_progress = true) := by
      have : (step_counters s j l b).shot_in_progress = false := hidle
      rw [this]
      exact Bool.false_ne_true
    unfold resolve_phase
    rw [if_neg hprog]
  · intro r m c frame_index
    rfl

/-- Claim C9 witness: a concrete idle state with an all-false input returns
no records and only the (unchanged) counters. -/
theorem idle_no_start_is_pure_counter_update_witness :
    update ⟨3, 2, 1, false, ShotType.NONE, none, none, 0, 0, 0, 0, none⟩ 42 false false false =
      (step_counters ⟨3, 2, 1, false, ShotType.NONE, none, none, 0, 0, 0, 0, none⟩
        false false false, []) :=
  idle_no_start_is_pure_counter_update.1
    ⟨3, 2, 1, false, ShotType.NONE, none, none, 0, 0, 0, 0, none⟩ 42 false false false
    rfl (by decide)

/-- Claim C6: inside the post-made cooldown window (strict comparison
`frame_index - last_made_frame < cooldown_frames_after_made`), an `update`
call behaves exactly like the call with the start-handling block skipped —
so no START record is emitted and no new shot begins — and the resolution
block never reads `cooldown_frames_after_made` or `last_made_frame`, so an
in-progress shot resolves on the same call with the same records as it
would without the cooldown. -/
theorem cooldown_only_suppresses_starts :
    (∀ (s : ShotEventTracker) (frame_index : Int) (j l b : Bool),
      within_post_made_cooldown s frame_index = true →
      update s frame_index j l b = update_without_start s frame_index j l b ∧
      (∀ r ∈ (update s frame_index j l b).2, r.event ≠ ShotEvent.START) ∧
      ((update s frame_index j l b).1.shot_in_progress = true →
        s.shot_in_progress = true ∧
        (update s frame_index j l b).1.shot_start_frame = s.shot_start_frame)) ∧
    (∀ (s : ShotEventTracker) (frame_index : Int) (events : List ShotEventRecord)
        (c : Int) (lm : Option Int),
      (resolve_phase { s with cooldown_frames_after_made := c, last_made_frame := lm }
          frame_index events).2 =
        (resolve_phase s frame_index events).2) := by
  constructor
  · intro s frame_index j l b hcool
    have hcool' : within_post_made_cooldown (step_counters s j l b) frame_index = true := hcool
    have hsp : start_phase (step_counters s j l b) frame_index
        (decide ((step_counters s j l b).consecutive_jump_shot_frames =
          JUMP_SHOT_MIN_CONSECUTIVE_FRAMES))
        (decide ((step_counters s j l b).consecutive_layup_frames =
          LAYUP_DUNK_MIN_CONSECUTIVE_FRAMES)) = (step_counters s j l b, []) := by
      unfold start_phase
      apply if_neg
      rw [Bool.and_eq_true]
      rintro ⟨-, hnc⟩
      rw [hcool'] at hnc
      cases hnc
    have hupd : update s frame_index j l b = update_without_start s frame_index j l b := by
      show resolve_phase (start_phase (step_counters s j l b) frame_index _ _).1 frame_index
        (start_phase (step_counters s j l b) frame_index _ _).2 = _
      rw [hsp]
      rfl
    refine ⟨hupd, ?_, ?_⟩
    · intro r hr he
      rw [hupd] at hr
      have hr' : r ∈ (resolve_phase (step_counters s j l b) frame_index []).2 := hr
      rcases mem_resolve_phase_events hr' with h | h | h
      · exact absurd h (List.not_mem_nil r)
      · rw [he] at h
        cases h.2.1
      · rw [he] at h
        cases h.2.1
    · intro hprog
      rw [hupd] at hprog
      have hprog' : (resolve_phase (step_counters s j l b) frame_index []).1.shot_in_progress =
          true := hprog
      have hgoal : (update s frame_index j l b).1.shot_start_frame =
          (resolve_phase (step_counters s j l b) frame_index []).1.shot_start_frame := by
        rw [hupd]
        rfl
      rcases resolve_phase_state_cases (step_counters s j l b) frame_index [] with h | h | h | h
      · rw [h] at hprog'
        simp [reset_shot_state, reset_consecutive_counters] at hprog'
      · rw [h] at hprog'
        simp [reset_shot_state, reset_consecutive_counters] at hprog'
      · rw [h] at hprog' hgoal
        exact ⟨hprog', hgoal⟩
      · rw [h] at hprog' hgoal
        exact ⟨hprog', hgoal⟩
  · intro s frame_index events c lm
    unfold resolve_phase
    by_cases h : s.shot_in_progress = true
    · have h' : ({ s with cooldown_frames_after_made := c, last_made_frame := lm } : ShotEventTracker).shot_in_progress = true := h
      rw [if_pos h, if_pos h']
      by_cases hm : has_confirmed_make (tick s) = true
      · have hm' : has_confirmed_make (tick ({ s with cooldown_frames_after_made := c, last_made_frame := lm } : ShotEventTracker)) = true := hm
        rw [if_pos hm, if_pos hm']
        rfl
      · have hm' : ¬has_confirmed_make (tick ({ s with cooldown_frames_after_made := c, last_made_frame := lm } : ShotEventTracker)) = true := hm
        rw [if_neg hm, if_neg hm']
        by_cases hd : deadline_reached (tick s) frame_index = true
        · have hd' : deadline_reached (tick ({ s with cooldown_frames_after_made := c, last_made_frame := lm } : ShotEventTracker)) frame_index = true := hd
          rw [if_pos hd, if_pos hd']
          rfl
        · have hd' : ¬deadline_reached (tick ({ s with cooldown_frames_after_made := c, last_made_frame := lm } : ShotEventTracker)) frame_index = true := hd
          rw [if_neg hd, if_neg hd']
    · have h' : ¬({ s with cooldown_frames_after_made := c, last_made_frame := lm } : ShotEventTracker).shot_in_progress = true := h
      rw [if_neg h, if_neg h']

/-- Claim C6 witness: a concrete call falling inside the cooldown window
(frame 10 with a make recorded at frame 8 and an 8-frame cooldown) behaves
exactly like the start-free call. -/
theorem cooldown_only_suppresses_starts_witness :
    update ⟨5, 1, 8, false, ShotType.NONE, none, none, 0, 2, 0, 0, some 8⟩ 10 true false false =
      update_without_start ⟨5, 1, 8, false, ShotType.NONE, none, none, 0, 2, 0, 0, some 8⟩
        10 true false false :=
  (cooldown_only_suppresses_starts.1
    ⟨5, 1, 8, false, ShotType.NONE, none, none, 0, 2, 0, 0, some 8⟩ 10 true false false
    (by decide)).1

/-- Claim C3: when the (uncooled) start condition fires while a shot is in
progress: if the shot's age has reached `minimum_frames_between_starts` the
call returns exactly a MISSED record for the current shot (with its recorded
type) followed by a START record for the new shot (JUMP-first tie-break),
both stamped with `frame_index`, and the new shot's start frame is
`frame_index`; if the age is below the minimum, the call is identical to one
with the start-handling block skipped — no record for the rejected attempt,
shot fields untouched by the rejection. -/
theorem forced_missed_then_start_or_rejection :
    ∀ (s : ShotEventTracker) (frame_index : Int) (j l b : Bool),
      s.shot_in_progress = true →
      (updated_consecutive_frames s.consecutive_jump_shot_frames j =
          JUMP_SHOT_MIN_CONSECUTIVE_FRAMES ∨
        updated_consecutive_frames s.consecutive_layup_frames l =
          LAYUP_DUNK_MIN_CONSECUTIVE_FRAMES) →
      within_post_made_cooldown s frame_index = false →
      ((0 < s.reset_time_frames →
        s.minimum_frames_between_starts ≤ s.frames_since_start →
        (update s frame_index j l b).2 =
          [{ event := ShotEvent.MISSED, frame := frame_index, type := s.shot_type },
           { event := ShotEvent.START, frame := frame_index,
             type := if updated_consecutive_frames s.consecutive_jump_shot_frames j =
                 JUMP_SHOT_MIN_CONSECUTIVE_FRAMES then ShotType.JUMP else ShotType.LAYUP }] ∧
        (update s frame_index j l b).1.shot_start_frame = some frame_index) ∧
       (s.frames_since_start < s.minimum_frames_between_starts →
        update s frame_index j l b = update_without_start s frame_index j l b ∧
        ∀ r ∈ (update s frame_index j l b).2, r.event ≠ ShotEvent.START)) := by
  intro s frame_index j l b hprog hthresh hcool
  have hcool' : within_post_made_cooldown (step_counters s j l b) frame_index = false := hcool
  have hprog' : (step_counters s j l b).shot_in_progress = true := hprog
  have hcond : ((decide ((step_counters s j l b).consecutive_jump_shot_frames =
        JUMP_SHOT_MIN_CONSECUTIVE_FRAMES) ||
      decide ((step_counters s j l b).consecutive_layup_frames =
        LAYUP_DUNK_MIN_CONSECUTIVE_FRAMES)) &&
      !(within_post_made_cooldown (step_counters s j l b) frame_index)) = true := by
    rw [Bool.and_eq_true, Bool.or_eq_true, hcool']
    refine ⟨?_, rfl⟩
    rcases hthresh with h | h
    · exact Or.inl (decide_eq_true h)
    · exact Or.inr (decide_eq_true h)
  constructor
  · intro hreset hmin
    have hmin' : (step_counters s j l b).minimum_frames_between_starts ≤
        (step_counters s j l b).frames_since_start := hmin
    have hsp : start_phase (step_counters s j l b) frame_index
        (decide ((step_counters s j l b).consecutive_jump_shot_frames =
          JUMP_SHOT_MIN_CONSECUTIVE_FRAMES))
        (decide ((step_counters s j l b).consecutive_layup_frames =
          LAYUP_DUNK_MIN_CONSECUTIVE_FRAMES)) =
        (start_new_shot (reset_shot_state (step_counters s j l b))
          (if decide ((step_counters s j l b).consecutive_jump_shot_frames =
              JUMP_SHOT_MIN_CONSECUTIVE_FRAMES) then ShotType.JUMP else ShotType.LAYUP)
          frame_index,
         [missed_event (step_counters s j l b) frame_index,
          start_event (start_new_shot (reset_shot_state (step_counters s j l b))
            (if decide ((step_counters s j l b).consecutive_jump_shot_frames =
                JUMP_SHOT_MIN_CONSECUTIVE_FRAMES) then ShotType.JUMP else ShotType.LAYUP)
            frame_index) frame_index]) := by
      unfold start_phase start_shot_branch
      rw [if_pos hcond, if_pos hprog', if_pos hmin']
    have hresolve : ∀ (t : ShotType) (evs : List ShotEventRecord),
        resolve_phase (start_new_shot (reset_shot_state (step_counters s j l b)) t frame_index)
          frame_index evs =
        (tick (start_new_shot (reset_shot_state (step_counters s j l b)) t frame_index), evs) := by
      intro t evs
      have h1 : (start_new_shot (reset_shot_state (step_counters s j l b)) t
          frame_index).shot_in_progress = true := rfl
      have h2 : has_confirmed_make (tick (start_new_shot (reset_shot_state (step_counters s j l b))
          t frame_index)) = false := rfl
      have h3 : deadline_reached (tick (start_new_shot (reset_shot_state (step_counters s j l b))
          t frame_index)) frame_index = false := by
        show decide (frame_index + s.reset_time_frames ≤ frame_index) = false
        exact decide_eq_false (by omega)
      unfold resolve_phase
      rw [if_pos h1, if_neg (by rw [h2]; exact Bool.false_ne_true),
        if_neg (by rw [h3]; exact Bool.false_ne_true)]
    show ((resolve_phase (start_phase (step_counters s j l b) frame_index _ _).1 frame_index
      (start_phase (step_counters s j l b) frame_index _ _).2).2 = _) ∧
      ((resolve_phase (start_phase (step_counters s j l b) frame_index _ _).1 frame_index
        (start_phase (step_counters s j l b) frame_index _ _).2).1.shot_start_frame = _)
    rw [hsp]
    rw [hresolve]
    constructor
    · by_cases hj : updated_consecutive_frames s.consecutive_jump_shot_frames j =
          JUMP_SHOT_MIN_CONSECUTIVE_FRAMES
      · have hj' : (step_counters s j l b).consecutive_jump_shot_frames =
            JUMP_SHOT_MIN_CONSECUTIVE_FRAMES := hj
        rw [if_pos hj, if_pos (decide_eq_true hj')]
        rfl
      · have hj' : ¬(step_counters s j l b).consecutive_jump_shot_frames =
            JUMP_SHOT_MIN_CONSECUTIVE_FRAMES := hj
        rw [if_neg hj, if_neg (by simpa using hj')]
        rfl
    · rfl
  · intro hmin
    have hmin' : ¬((step_counters s j l b).minimum_frames_between_starts ≤
        (step_counters s j l b).frames_since_start) := not_le.2 hmin
    have hsp : start_phase (step_counters s j l b) frame_index
        (decide ((step_counters s j l b).consecutive_jump_shot_frames =
          JUMP_SHOT_MIN_CONSECUTIVE_FRAMES))
        (decide ((step_counters s j l b).consecutive_layup_frames =
          LAYUP_DUNK_MIN_CONSECUTIVE_FRAMES)) = (step_counters s j l b, []) := by
      unfold start_phase start_shot_branch
      rw [if_pos hcond, if_pos hprog', if_neg hmin']
    have hupd : update s frame_index j l b = update_without_start s frame_index j l b := by
      show resolve_phase (start_phase (step_counters s j l b) frame_index _ _).1 frame_index
        (start_phase (step_counters s j l b) frame_index _ _).2 = _
      rw [hsp]
      rfl
    refine ⟨hupd, ?_⟩
    intro r hr he
    rw [hupd] at hr
    have hr' : r ∈ (resolve_phase (step_counters s j l b) frame_index []).2 := hr
    rcases mem_resolve_phase_events hr' with h | h | h
    · exact absurd h (List.not_mem_nil r)
    · rw [he] at h
      cases h.2.1
    · rw [he] at h
      cases h.2.1

/-- Claim C3 witness: a jump-shot pattern completing at frame 8 pre-empts a
layup shot started at frame 2 (age 6 over a minimum of 5), emitting MISSED
then START at frame 8. -/
theorem forced_missed_then_start_or_rejection_witness :
    (update ⟨10, 5, 0, true, ShotType.LAYUP, some 2, some 12, 6, 2, 0, 0, none⟩
        8 true false false).2 =
      [{ event := ShotEvent.MISSED, frame := 8, type := ShotType.LAYUP },
       { event := ShotEvent.START, frame := 8,
         type := if updated_consecutive_frames 2 true = JUMP_SHOT_MIN_CONSECUTIVE_FRAMES then
           ShotType.JUMP else ShotType.LAYUP }] ∧
    (update ⟨10, 5, 0, true, ShotType.LAYUP, some 2, some 12, 6, 2, 0, 0, none⟩
        8 true false false).1.shot_start_frame = some 8 :=
  (forced_missed_then_start_or_rejection
      ⟨10, 5, 0, true, ShotType.LAYUP, some 2, some 12, 6, 2, 0, 0, none⟩ 8 true false false
      rfl (Or.inl (by decide)) rfl).1 (by decide) (by decide)

/-- Claim C2, counterexample: with configuration (1, 1, 0), three true
jump-shot frames start a shot (counter at 3) and the deadline expires on the
frame-3 call; `_reset_shot_state` then zeroes all counters, so the jump
counter ends that call at 0 although its input was true — not at 3 + 1 as
the claim requires. -/
theorem counter_not_incremented_on_reset :
    (runState (init 1 1 0)
        [⟨0, true, false, false⟩, ⟨1, true, false, false⟩,
         ⟨2, true, false, false⟩]).consecutive_jump_shot_frames = 3 ∧
    (update (runState (init 1 1 0)
        [⟨0, true, false, false⟩, ⟨1, true, false, false⟩,
         ⟨2, true, false, false⟩]) 3 true false false).1.consecutive_jump_shot_frames = 0 ∧
    (0 : Int) ≠ 3 + 1 := by
  refine ⟨by decide, by decide, by decide⟩

set_option maxHeartbeats 2000000 in
/-- Claim C2, amended: each counter is first stepped to previous-plus-1 on a
true input and 0 on a false one; afterwards, a call that emits a MADE or
MISSED record resets all three counters to 0 via `_reset_shot_state`, and a
call that emits any record zeroes the ball-in-basket counter (a START resets
it on `_start_new_shot`).  Hence the end-of-call value of the jump and layup
counters is the stepped value unless a MADE or MISSED record was emitted
(then 0), and the ball counter keeps its stepped value only on record-free
calls.  A START can therefore fire more than once during one sustained run
when a reset intervenes. -/
theorem counter_evolution_characterization :
    ∀ (s : ShotEventTracker) (frame_index : Int) (j l b : Bool),
      (update s frame_index j l b).1.consecutive_jump_shot_frames =
        (if (update s frame_index j l b).2.any (fun r =>
            decide (r.event = ShotEvent.MADE) || decide (r.event = ShotEvent.MISSED)) then 0
         else updated_consecutive_frames s.consecutive_jump_shot_frames j) ∧
      (update s frame_index j l b).1.consecutive_layup_frames =
        (if (update s frame_index j l b).2.any (fun r =>
            decide (r.event = ShotEvent.MADE) || decide (r.event = ShotEvent.MISSED)) then 0
         else updated_consecutive_frames s.consecutive_layup_frames l) ∧
      (update s frame_index j l b).1.consecutive_ball_in_basket_frames =
        (if (update s frame_index j l b).2 = [] then
          updated_consecutive_frames s.consecutive_ball_in_basket_frames b else 0) := by
  intro s frame_index j l b
  have key : ∀ (s' : ShotEventTracker) (rj rl : Bool),
      (resolve_phase (start_phase s' frame_index rj rl).1 frame_index
        (start_phase s' frame_index rj rl).2).1.consecutive_jump_shot_frames =
        (if (resolve_phase (start_phase s' frame_index rj rl).1 frame_index
            (start_phase s' frame_index rj rl).2).2.any (fun r =>
            decide (r.event = ShotEvent.MADE) || decide (r.event = ShotEvent.MISSED)) then 0
         else s'.consecutive_jump_shot_frames) ∧
      (resolve_phase (start_phase s' frame_index rj rl).1 frame_index
        (start_phase s' frame_index rj rl).2).1.consecutive_layup_frames =
        (if (resolve_phase (start_phase s' frame_index rj rl).1 frame_index
            (start_phase s' frame_index rj rl).2).2.any (fun r =>
            decide (r.event = ShotEvent.MADE) || decide (r.event = ShotEvent.MISSED)) then 0
         else s'.consecutive_layup_frames) ∧
      (resolve_phase (start_phase s' frame_index rj rl).1 frame_index
        (start_phase s' frame_index rj rl).2).1.consecutive_ball_in_basket_frames =
        (if (resolve_phase (start_phase s' frame_index rj rl).1 frame_index
            (start_phase s' frame_index rj rl).2).2 = [] then
          s'.consecutive_ball_in_basket_frames else 0) := by
    intro s' rj rl
    unfold start_phase start_shot_branch resolve_phase
    split_ifs <;>
      simp_all [tick, start_new_shot, reset_shot_state, reset_consecutive_counters,
        record_made_frame, made_event, missed_event, start_event, has_confirmed_make,
        deadline_reached, BALL_IN_BASKET_MIN_CONSECUTIVE_FRAMES]
  exact key (step_counters s j l b)
    (decide ((step_counters s j l b).consecutive_jump_shot_frames =
      JUMP_SHOT_MIN_CONSECUTIVE_FRAMES))
    (decide ((step_counters s j l b).consecutive_layup_frames =
      LAYUP_DUNK_MIN_CONSECUTIVE_FRAMES))

/-- Claim C10: `update` is total and never raises — for every state
(covering every state reachable from any construction with integer
parameters), every integer `frame_index` (negative and non-monotonic values
included) and every combination of the three boolean inputs, the
error-tracking embedding returns `Except.ok` of the pure result, a record
list. -/
theorem updateE_never_fails (s0 : ShotEventTracker) (frame_index : Int)
    (has_jump_shot has_layup_dunk has_ball_in_basket : Bool) :
    updateE s0 frame_index has_jump_shot has_layup_dunk has_ball_in_basket =
      Except.ok (update s0 frame_index has_jump_shot has_layup_dunk has_ball_in_basket) := by
  simp only [updateE, update, start_phase, within_post_made_cooldownE_eq, resolve_phaseE_eq,
    Bind.bind, Except.bind]

/-- Claim C7: in every state reachable by `update` calls from a freshly
constructed tracker, `shot_in_progress = false` holds exactly when the shot
type is NONE, the start and deadline frames are unset and the shot age is 0;
and the deadline frame is always the start frame plus `reset_time_frames`
(both unset together when idle). -/
theorem reachable_state_invariant :
    ∀ (r m c : Int) (inputs : List FrameInput),
      ((runState (init r m c) inputs).shot_in_progress = false ↔
        ((runState (init r m c) inputs).shot_type = ShotType.NONE ∧
          (runState (init r m c) inputs).shot_start_frame = none ∧
          (runState (init r m c) inputs).shot_deadline_frame = none ∧
          (runState (init r m c) inputs).frames_since_start = 0)) ∧
      (runState (init r m c) inputs).shot_deadline_frame =
        Option.map (fun a => a + r) (runState (init r m c) inputs).shot_start_frame := by
  intro r m c inputs
  have hinv : Inv (runState (init r m c) inputs) := inv_runState _ _ (inv_init r m c)
  have hcfg : (runState (init r m c) inputs).reset_time_frames = r :=
    runState_reset_time_frames (init r m c) inputs
  constructor
  · constructor
    · intro h0
      exact hinv.1 h0
    · intro hconj
      cases hb : (runState (init r m c) inputs).shot_in_progress
      · rfl
      · exact absurd hconj.1 (hinv.2 hb).1
  · cases hb : (runState (init r m c) inputs).shot_in_progress
    · obtain ⟨-, hstart, hdead, -⟩ := hinv.1 hb
      rw [hstart, hdead]
      rfl
    · obtain ⟨-, a, hstart, hdead⟩ := hinv.2 hb
      rw [hstart, hdead, hcfg]
      rfl

/-- Every `update` call from a state satisfying the invariant, under a
positive `reset_time_frames`, emits at most two records and never a record
of type NONE. -/
theorem update_output_shape_core (s : ShotEventTracker) (frame_index : Int) (j l b : Bool)
    (h : Inv s) (hr : 0 < s.reset_time_frames) :
    (update s frame_index j l b).2.length ≤ 2 ∧
    ∀ rec ∈ (update s frame_index j l b).2,
      (rec.event = ShotEvent.START ∨ rec.event = ShotEvent.MADE ∨
        rec.event = ShotEvent.MISSED) ∧ rec.type ≠ ShotType.NONE := by
  have hs' : Inv (step_counters s j l b) := inv_step_counters s j l b h
  have hbase : (resolve_phase (step_counters s j l b) frame_index []).2.length ≤ 2 ∧
      ∀ rec ∈ (resolve_phase (step_counters s j l b) frame_index []).2,
        (rec.event = ShotEvent.START ∨ rec.event = ShotEvent.MADE ∨
          rec.event = ShotEvent.MISSED) ∧ rec.type ≠ ShotType.NONE := by
    constructor
    · have := resolve_phase_length (step_counters s j l b) frame_index []
      simpa using le_trans this (by norm_num)
    · intro rec hrec
      rcases mem_resolve_phase_events hrec with h0 | h0 | h0
      · exact absurd h0 (List.not_mem_nil rec)
      · obtain ⟨hb, he, ht, -⟩ := h0
        rw [he, ht]
        exact ⟨Or.inr (Or.inl rfl), (hs'.2 hb).1⟩
      · obtain ⟨hb, he, ht, -⟩ := h0
        rw [he, ht]
        exact ⟨Or.inr (Or.inr rfl), (hs'.2 hb).1⟩
  have hu : update s frame_index j l b =
      resolve_phase (start_phase (step_counters s j l b) frame_index
        (decide ((step_counters s j l b).consecutive_jump_shot_frames =
          JUMP_SHOT_MIN_CONSECUTIVE_FRAMES))
        (decide ((step_counters s j l b).consecutive_layup_frames =
          LAYUP_DUNK_MIN_CONSECUTIVE_FRAMES))).1 frame_index
        (start_phase (step_counters s j l b) frame_index
          (decide ((step_counters s j l b).consecutive_jump_shot_frames =
            JUMP_SHOT_MIN_CONSECUTIVE_FRAMES))
          (decide ((step_counters s j l b).consecutive_layup_frames =
            LAYUP_DUNK_MIN_CONSECUTIVE_FRAMES))).2 := rfl
  rw [hu]
  unfold start_phase
  by_cases hc : ((decide ((step_counters s j l b).consecutive_jump_shot_frames =
        JUMP_SHOT_MIN_CONSECUTIVE_FRAMES) ||
      decide ((step_counters s j l b).consecutive_layup_frames =
        LAYUP_DUNK_MIN_CONSECUTIVE_FRAMES)) &&
      !(within_post_made_cooldown (step_counters s j l b) frame_index)) = true
  · rw [if_pos hc]
    unfold start_shot_branch
    by_cases hprog : (step_counters s j l b).shot_in_progress = true
    · by_cases hmin : (step_counters s j l b).minimum_frames_between_starts ≤
          (step_counters s j l b).frames_since_start
      · rw [if_pos hprog, if_pos hmin]
        rw [resolve_phase_after_start (reset_shot_state (step_counters s j l b)) _ _ _ hr]
        constructor
        · simp
        · intro rec hrec
          rcases List.mem_cons.1 hrec with rfl | hrec
          · exact ⟨Or.inr (Or.inr rfl), (hs'.2 hprog).1⟩
          · rcases List.mem_singleton.1 hrec with rfl
            refine ⟨Or.inl rfl, ?_⟩
            show (if decide ((step_counters s j l b).consecutive_jump_shot_frames =
              JUMP_SHOT_MIN_CONSECUTIVE_FRAMES) = true then
                ShotType.JUMP else ShotType.LAYUP) ≠ ShotType.NONE
            split <;> simp
      · rw [if_pos hprog, if_neg hmin]
        exact hbase
    · rw [if_neg hprog]
      rw [resolve_phase_after_start (step_counters s j l b) _ _ _ hr]
      constructor
      · simp
      · intro rec hrec
        rcases List.mem_singleton.1 hrec with rfl
        refine ⟨Or.inl rfl, ?_⟩
        show (if decide ((step_counters s j l b).consecutive_jump_shot_frames =
          JUMP_SHOT_MIN_CONSECUTIVE_FRAMES) = true then
            ShotType.JUMP else ShotType.LAYUP) ≠ ShotType.NONE
        split <;> simp
  · rw [if_neg hc]
    exact hbase

/-- Claim C8: under a valid configuration, every `update` call from every
state reachable from construction returns 0, 1 or 2 records, each record's
event is START, MADE or MISSED, and no emitted record has type NONE. -/
theorem update_output_shape :
    ∀ (r m c : Int) (inputs : List FrameInput) (frame_index : Int) (j l b : Bool),
      0 < r → 0 < m → 0 ≤ c →
      (update (runState (init r m c) inputs) frame_index j l b).2.length ≤ 2 ∧
      ∀ rec ∈ (update (runState (init r m c) inputs) frame_index j l b).2,
        (rec.event = ShotEvent.START ∨ rec.event = ShotEvent.MADE ∨
          rec.event = ShotEvent.MISSED) ∧ rec.type ≠ ShotType.NONE := by
  intro r m c inputs frame_index j l b hr _ _
  have hinv : Inv (runState (init r m c) inputs) := inv_runState _ _ (inv_init r m c)
  have hcfg : 0 < (runState (init r m c) inputs).reset_time_frames := by
    rw [runState_reset_time_frames (init r m c) inputs]
    exact hr
  exact update_output_shape_core _ frame_index j l b hinv hcfg

/-- Claim C8 witness: a concrete valid-configuration call (the frame-2 START
of the debounce scenario) emits one record, a START of type JUMP. -/
theorem update_output_shape_witness :
    (update (runState (init 10 5 0) [⟨0, true, false, false⟩, ⟨1, true, false, false⟩])
        2 true false false).2.length ≤ 2 ∧
    ∀ rec ∈ (update (runState (init 10 5 0)
        [⟨0, true, false, false⟩, ⟨1, true, false, false⟩]) 2 true false false).2,
      (rec.event = ShotEvent.START ∨ rec.event = ShotEvent.MADE ∨
        rec.event = ShotEvent.MISSED) ∧ rec.type ≠ ShotType.NONE :=
  update_output_shape 10 5 0 [⟨0, true, false, false⟩, ⟨1, true, false, false⟩]
    2 true false false (by decide) (by decide) (by decide)

end Sports.ShotEventTracker
